import Mathlib

/-!
Verification development for the music-player-with-visualizer repository.

The audio-analysis pipeline is shallowly embedded: the module-level Web Audio
state (audioContext / analyser / dataArray / source / gainNode) becomes an
explicit record, every exported function of the audio-utility module becomes a
Lean function on that record, and the two canvas renderers become functions
producing an explicit list of draw commands. Machine numbers are modelled as
Nat (byte magnitudes, 0..255) and Rat (JS floating-point arithmetic on the
values the claims are about, which stays exact here).
-/

namespace PlayerViz

/-- Byte-magnitude frequency snapshot: one sample per bin, each in 0..255. -/
abbrev Snapshot := List Nat

/-- Sum of `d[i]` for `i` running from `a` (inclusive) to `b` (exclusive),
mirroring the JS loops `for (let i = a; i < b; i++) sum += data[i]`.
Out-of-range reads yield 0 (JS `undefined` never occurs in the real loops;
the bounds proved below show every read is in range). -/
def loopSum (d : Snapshot) (a b : Nat) : Nat :=
  (List.range' a (b - a)).foldl (fun acc i => acc + d.getD i 0) 0

/-- Arithmetic mean of a list of byte magnitudes, as a rational. -/
def listMean (xs : List Nat) : Rat :=
  (xs.sum : Rat) / (xs.length : Rat)

/-- End of the bass range: `Math.floor(frequencyData.length / 8)`. -/
def bassEnd (n : Nat) : Nat := n / 8

/-- End of the mid range: `Math.floor(frequencyData.length * 5 / 8)`. -/
def midEnd (n : Nat) : Nat := n * 5 / 8

/-- Pure core of `getBassFrequency`: averages the first eighth of the
snapshot. Division follows the JS expression `sum / bassRange`. -/
def getBassFrequency (d : Snapshot) : Rat :=
  (loopSum d 0 (bassEnd d.length) : Rat) / ((bassEnd d.length : Nat) : Rat)

/-- Pure core of `getMidFrequency`: averages indices from `n/8` to `5n/8`. -/
def getMidFrequency (d : Snapshot) : Rat :=
  (loopSum d (bassEnd d.length) (midEnd d.length) : Rat) /
    (((midEnd d.length - bassEnd d.length) : Nat) : Rat)

/-- Pure core of `getTrebleFrequency`: averages indices from `5n/8` to the
end of the snapshot. -/
def getTrebleFrequency (d : Snapshot) : Rat :=
  (loopSum d (midEnd d.length) d.length : Rat) /
    (((d.length - midEnd d.length) : Nat) : Rat)

/-- Pure core of `detectBeat`: `bassLevel > threshold`. -/
def detectBeat (d : Snapshot) (threshold : Rat) : Bool :=
  getBassFrequency d > threshold

/-- `detectBeat` with its default argument `threshold = 200`. -/
def detectBeatDefault (d : Snapshot) : Bool :=
  detectBeat d 200

/- Helper lemmas about the loop sums. -/

theorem foldl_add_eq_sum_map (f : Nat → Nat) (l : List Nat) (acc : Nat) :
    l.foldl (fun a i => a + f i) acc = acc + (l.map f).sum := by
  induction l generalizing acc with
  | nil => simp
  | cons x xs ih => simp [ih, Nat.add_assoc]

theorem loopSum_eq_sum_map (d : Snapshot) (a b : Nat) :
    loopSum d a b = ((List.range' a (b - a)).map (fun i => d.getD i 0)).sum := by
  simp [loopSum, foldl_add_eq_sum_map]

theorem range'_map_getD (d : Snapshot) :
    ∀ (n a : Nat), a + n ≤ d.length →
      (List.range' a n).map (fun i => d.getD i 0) = (d.drop a).take n := by
  intro n
  induction n with
  | zero => intro a _; simp
  | succ m ih =>
      intro a hle
      have ha : a < d.length := by omega
      have hdrop : d.drop a = d.get ⟨a, ha⟩ :: d.drop (a + 1) :=
        List.drop_eq_get_cons ha
      have hgetD : d.getD a 0 = d.get ⟨a, ha⟩ := by
        simp [List.getD_eq_get, ha]
      rw [List.range'_succ, List.map_cons, hdrop, List.take_succ_cons, hgetD,
        ih (a + 1) (by omega)]

/-- The loop sum over `[a, b)` is the sum of the corresponding slice of the
snapshot, whenever the range stays in bounds. -/
theorem loopSum_eq_slice_sum (d : Snapshot) (a b : Nat)
    (hab : a ≤ b) (hb : b ≤ d.length) :
    loopSum d a b = ((d.drop a).take (b - a)).sum := by
  rw [loopSum_eq_sum_map, range'_map_getD d (b - a) a (by omega)]

theorem slice_length (d : Snapshot) (a b : Nat)
    (hab : a ≤ b) (hb : b ≤ d.length) :
    ((d.drop a).take (b - a)).length = b - a := by
  simp [List.length_take, List.length_drop]
  omega

/-- Lifecycle state of the underlying AudioContext. -/
inductive CtxState
  | running
  | suspended
  | closed
deriving DecidableEq, Repr

/-- The module-level mutable state of the audio-utility module: the five
globals `audioContext`, `analyser`, `dataArray`, `source`, `gainNode`,
together with the underlying Web Audio graph edges the claims are about.
`taps` is the multiset of live media-element-source → analyser connections,
each entry a pair (source node id, element id); `source` holds the node id
currently referenced by the module's `source` variable; `gainNode` holds the
gain node's current gain value when the node exists. -/
structure AudioState where
  audioContext : Option CtxState
  analyser : Bool
  dataArray : Option (List Nat)
  source : Option Nat
  gainNode : Option Rat
  taps : List (Nat × Nat)
  tappedElems : List Nat
  nextSrcId : Nat
deriving DecidableEq, Repr

/-- The platform error raised by `createMediaElementSource` when the media
element already has a source node: an HTMLMediaElement can be tapped at
most once in its lifetime, so a second attempt throws InvalidStateError
instead of ever creating a duplicate connection. `tappedElems` above
records the elements that permanently carry this mark. -/
inductive AudioErr
  | invalidState
deriving DecidableEq, Repr

/-- Outcome of an operation whose body may throw: the error propagated to
the caller, if any, together with the module state left behind by the
mutations that ran before the throw point. -/
structure OpResult where
  thrown : Option AudioErr
  state : AudioState
deriving DecidableEq, Repr

/-- frequencyBinCount for the configured fftSize of 256. -/
def freqBinCount : Nat := 128

/-- Fresh module state: every global is null, no graph exists, no element
has ever been tapped. -/
def initState : AudioState :=
  { audioContext := none, analyser := false, dataArray := none,
    source := none, gainNode := none, taps := [], tappedElems := [],
    nextSrcId := 0 }

/-- Embedding of `initializeAudioContext(audioElement)`: creates the context
(resuming it if suspended), the analyser and the gain node if absent, then
taps the element only when `source` is still null. If that guarded
`createMediaElementSource` hits an already-tapped element it throws
InvalidStateError, which the function's try/catch swallows: the context,
analyser and gain node mutations that already ran persist, no connection is
made, and the lines after the throw (the data-array reallocation) are
skipped. `elem` is the element argument (`none` models a null element). -/
def initializeAudioContext (elem : Option Nat) (s : AudioState) : AudioState :=
  let ctx' := match s.audioContext with
    | none => CtxState.running
    | some CtxState.suspended => CtxState.running
    | some st => st
  let gain' := s.gainNode.getD 1
  match s.source, elem with
  | none, some e =>
      if e ∈ s.tappedElems then
        { s with audioContext := some ctx', analyser := true,
                 gainNode := some gain' }
      else
        { audioContext := some ctx', analyser := true,
          dataArray := some (List.replicate freqBinCount 0),
          source := some s.nextSrcId, gainNode := some gain',
          taps := (s.nextSrcId, e) :: s.taps,
          tappedElems := e :: s.tappedElems,
          nextSrcId := s.nextSrcId + 1 }
  | _, _ =>
      { audioContext := some ctx', analyser := true,
        dataArray := some (List.replicate freqBinCount 0),
        source := s.source, gainNode := some gain',
        taps := s.taps, tappedElems := s.tappedElems,
        nextSrcId := s.nextSrcId }

/-- Embedding of `connectAnalyzer(audioElement)`: ensures context, analyser
and gain node exist, then calls `createMediaElementSource` with no guard
and no try/catch. On a never-tapped element it creates a fresh source,
connects it to the analyser and overwrites the module's `source`
reference; on an already-tapped element the platform throws
InvalidStateError before any connection is made, so the exception
propagates with the graph unchanged beyond the node-creation mutations. -/
def connectAnalyzer (e : Nat) (s : AudioState) : OpResult :=
  let s1 : AudioState :=
    { s with audioContext := some (s.audioContext.getD CtxState.suspended),
             analyser := true,
             gainNode := some (s.gainNode.getD 1) }
  if e ∈ s1.tappedElems then
    { thrown := some AudioErr.invalidState, state := s1 }
  else
    { thrown := none,
      state :=
        { s1 with source := some s1.nextSrcId,
                  taps := (s1.nextSrcId, e) :: s1.taps,
                  tappedElems := e :: s1.tappedElems,
                  nextSrcId := s1.nextSrcId + 1 } }

/-- Number of live source → analyser connections tapping element `e`. -/
def tapCount (e : Nat) (s : AudioState) : Nat :=
  (s.taps.filter (fun p => p.2 = e)).length

/-- Embedding of `getFrequencyData()`: null unless both the analyser and the
data array exist; otherwise fills the reusable buffer from the analyser's
current frequency signal `sig` and returns it. -/
def getFrequencyData (sig : List Nat) (s : AudioState) : Option (List Nat) :=
  if s.analyser then
    match s.dataArray with
    | some buf => some ((List.range buf.length).map (fun i => sig.getD i 0))
    | none => none
  else none

/-- Embedding of `getTimeDomainData()`: same guard, reading the analyser's
current time-domain signal. -/
def getTimeDomainData (sig : List Nat) (s : AudioState) : Option (List Nat) :=
  if s.analyser then
    match s.dataArray with
    | some buf => some ((List.range buf.length).map (fun i => sig.getD i 0))
    | none => none
  else none

/-- Embedding of `cleanupAudioContext()`: disconnects the tracked source
(removing its graph edges), then the analyser, then the gain node, closes
the context unless it is already closed, and nulls the data array. -/
def cleanupAudioContext (s : AudioState) : AudioState :=
  { audioContext :=
      match s.audioContext with
      | some st => if st = CtxState.closed then some st else none
      | none => none,
    analyser := false,
    dataArray := none,
    source := none,
    gainNode := none,
    taps :=
      match s.source with
      | some id => s.taps.filter (fun p => p.1 ≠ id)
      | none => s.taps,
    tappedElems := s.tappedElems,
    nextSrcId := s.nextSrcId }

/-- Embedding of `setVolume(volume)`: a no-op when the gain node is null
(only a warning is logged); otherwise clamps via
`Math.max(0, Math.min(1, volume))` and applies the clamped value to the
gain at the current context time (`setValueAtTime`, immediate, not ramped).
Reading `audioContext.currentTime` on a null context throws, which the
source catches, leaving the gain unchanged. -/
def setVolume (volume : Rat) (s : AudioState) : AudioState :=
  match s.gainNode with
  | none => s
  | some _ =>
      match s.audioContext with
      | none => s
      | some _ => { s with gainNode := some (max 0 (min 1 volume)) }

/-- At-most-one-tap well-formedness: every element has at most one live
source → analyser connection, and only an element marked as tapped can
have one. -/
def TapWf (s : AudioState) : Prop :=
  ∀ e, tapCount e s ≤ 1 ∧ (0 < tapCount e s → e ∈ s.tappedElems)

theorem tapCount_zero_of_not_tapped (s : AudioState) (hwf : TapWf s) (e : Nat)
    (h : e ∉ s.tappedElems) : tapCount e s = 0 := by
  by_contra hne
  exact h ((hwf e).2 (Nat.pos_of_ne_zero hne))

theorem length_filter_filter_le (f g : Nat × Nat → Bool) (l : List (Nat × Nat)) :
    ((l.filter f).filter g).length ≤ (l.filter g).length := by
  induction l with
  | nil => simp
  | cons a l ih =>
      by_cases hf : f a <;> by_cases hg : g a <;>
        simp [List.filter_cons, hf, hg, -List.filter_filter] <;> omega

theorem tapWf_initState : TapWf initState := by
  intro e
  simp [tapCount, initState]

theorem initializeAudioContext_tapWf (elem : Option Nat) (s : AudioState)
    (hwf : TapWf s) : TapWf (initializeAudioContext elem s) := by
  rcases hs : s.source with _ | id
  · rcases he : elem with _ | e'
    · intro e
      simpa [initializeAudioContext, hs, he, tapCount] using hwf e
    · by_cases ht : e' ∈ s.tappedElems
      · intro e
        simpa [initializeAudioContext, hs, he, ht, tapCount] using hwf e
      · intro e
        by_cases hee : e = e'
        · subst hee
          have h0 := tapCount_zero_of_not_tapped s hwf e ht
          simp only [tapCount] at h0
          refine ⟨?_, fun _ => ?_⟩
          · simp [initializeAudioContext, hs, he, ht, tapCount,
              List.filter_cons, h0]
          · simp [initializeAudioContext, hs, he, ht]
        · refine ⟨?_, fun hpos => ?_⟩
          · have h1 := (hwf e).1
            simpa [initializeAudioContext, hs, he, ht, tapCount,
              List.filter_cons, Ne.symm hee] using h1
          · have hold : 0 < tapCount e s := by
              simpa [initializeAudioContext, hs, he, ht, tapCount,
                List.filter_cons, Ne.symm hee] using hpos
            have hmem := (hwf e).2 hold
            simp [initializeAudioContext, hs, he, ht, hmem]
  · intro e
    simpa [initializeAudioContext, hs, tapCount] using hwf e

theorem connectAnalyzer_tapWf (e' : Nat) (s : AudioState)
    (hwf : TapWf s) : TapWf (connectAnalyzer e' s).state := by
  by_cases ht : e' ∈ s.tappedElems
  · intro e
    simpa [connectAnalyzer, ht, tapCount] using hwf e
  · intro e
    by_cases hee : e = e'
    · subst hee
      have h0 := tapCount_zero_of_not_tapped s hwf e ht
      simp only [tapCount] at h0
      refine ⟨?_, fun _ => ?_⟩
      · simp [connectAnalyzer, ht, tapCount, List.filter_cons, h0]
      · simp [connectAnalyzer, ht]
    · refine ⟨?_, fun hpos => ?_⟩
      · have h1 := (hwf e).1
        simpa [connectAnalyzer, ht, tapCount, List.filter_cons,
          Ne.symm hee] using h1
      · have hold : 0 < tapCount e s := by
          simpa [connectAnalyzer, ht, tapCount, List.filter_cons,
            Ne.symm hee] using hpos
        have hmem := (hwf e).2 hold
        simp [connectAnalyzer, ht, hmem]

theorem cleanupAudioContext_tapWf (s : AudioState) (hwf : TapWf s) :
    TapWf (cleanupAudioContext s) := by
  intro e
  have hle : tapCount e (cleanupAudioContext s) ≤ tapCount e s := by
    rcases hs : s.source with _ | id
    · simp [cleanupAudioContext, hs, tapCount]
    · simpa [cleanupAudioContext, hs, tapCount] using
        length_filter_filter_le _ _ s.taps
  refine ⟨le_trans hle (hwf e).1, fun hpos => ?_⟩
  have hold : 0 < tapCount e s := lt_of_lt_of_le hpos hle
  have hmem := (hwf e).2 hold
  simpa [cleanupAudioContext] using hmem

theorem already_bound_single_tap (e : Nat) (s : AudioState)
    (h1 : tapCount e s = 1) (ht : e ∈ s.tappedElems) :
    tapCount e (initializeAudioContext (some e) s) = 1 ∧
    tapCount e (connectAnalyzer e s).state = 1 := by
  constructor
  · rcases hs : s.source with _ | id
    · simpa [initializeAudioContext, hs, ht, tapCount] using h1
    · simpa [initializeAudioContext, hs, tapCount] using h1
  · simpa [connectAnalyzer, ht, tapCount] using h1

/-- C1: at most one tap per playback element, always. The well-formedness
predicate TapWf (each element has at most one live source → analyser
connection) holds of the fresh state and is preserved by
initializeAudioContext (whose tap is guarded by `!source`), by
connectAnalyzer (whose unguarded second `createMediaElementSource` on an
already-tapped element throws InvalidStateError before any connection is
made) and by cleanupAudioContext; and repeating either bind operation on an
element that already has its one tap leaves exactly one tap — never a
second, duplicate connection. -/
theorem single_tap_invariant (e : Nat) (elem : Option Nat) (s : AudioState) :
    TapWf initState ∧
    (TapWf s → TapWf (initializeAudioContext elem s)) ∧
    (TapWf s → TapWf (connectAnalyzer e s).state) ∧
    (TapWf s → TapWf (cleanupAudioContext s)) ∧
    (tapCount e s = 1 → e ∈ s.tappedElems →
      tapCount e (initializeAudioContext (some e) s) = 1 ∧
      tapCount e (connectAnalyzer e s).state = 1) :=
  ⟨tapWf_initState, initializeAudioContext_tapWf elem s,
   connectAnalyzer_tapWf e s, cleanupAudioContext_tapWf s,
   fun h1 ht => already_bound_single_tap e s h1 ht⟩

/-- Witness for C1: after binding element 0 once from the fresh state, a
repeated initializeAudioContext and a repeated connectAnalyzer each leave
exactly one tap on element 0. -/
theorem single_tap_invariant_witness :
    tapCount 0 (initializeAudioContext (some 0)
      (initializeAudioContext (some 0) initState)) = 1 ∧
    tapCount 0 (connectAnalyzer 0
      (initializeAudioContext (some 0) initState)).state = 1 :=
  (single_tap_invariant 0 (some 0)
      (initializeAudioContext (some 0) initState)).2.2.2.2
    (by decide) (by decide)

/-- C3: before the graph is constructed and bound (analyser or data buffer
absent) both sampling functions return null rather than raising; in
particular both return null on the fresh module state. -/
theorem sample_not_ready (fsig tsig : List Nat) (s : AudioState) :
    (s.analyser = false ∨ s.dataArray = none →
      getFrequencyData fsig s = none ∧ getTimeDomainData tsig s = none) ∧
    getFrequencyData fsig initState = none ∧
    getTimeDomainData tsig initState = none := by
  refine ⟨?_, rfl, rfl⟩
  rintro (h | h) <;> simp [getFrequencyData, getTimeDomainData, h]

/-- Witness for C3 on the fresh module state. -/
theorem sample_not_ready_witness :
    getFrequencyData [1, 2, 3] initState = none ∧
    getTimeDomainData [4, 5] initState = none :=
  (sample_not_ready [1, 2, 3] [4, 5] initState).1 (Or.inl rfl)

/-- C4: teardown is idempotent (a second call changes nothing and raises no
error — the embedding is a total function), a no-op on the never-constructed
state, and one call nulls source, analyser, gain node and data array and
leaves the context closed or already gone. -/
theorem cleanup_idempotent (s : AudioState) :
    cleanupAudioContext (cleanupAudioContext s) = cleanupAudioContext s ∧
    cleanupAudioContext initState = initState ∧
    (cleanupAudioContext s).source = none ∧
    (cleanupAudioContext s).analyser = false ∧
    (cleanupAudioContext s).gainNode = none ∧
    (cleanupAudioContext s).dataArray = none ∧
    ((cleanupAudioContext s).audioContext = none ∨
      (cleanupAudioContext s).audioContext = some CtxState.closed) := by
  refine ⟨?_, rfl, rfl, rfl, rfl, rfl, ?_⟩
  · cases hc : s.audioContext with
    | none => simp [cleanupAudioContext, hc]
    | some st =>
        cases st <;> simp [cleanupAudioContext, hc]
  · cases hc : s.audioContext with
    | none => simp [cleanupAudioContext, hc]
    | some st =>
        cases st <;> simp [cleanupAudioContext, hc]

/-- C5: when the gain node and context exist, setVolume applies exactly the
clamp of the input to [0,1]: negative inputs give 0, inputs above 1 give 1,
in-range inputs pass through unchanged. -/
theorem setVolume_clamps (v : Rat) (s : AudioState) (st : CtxState) (g : Rat)
    (hg : s.gainNode = some g) (hctx : s.audioContext = some st) :
    (setVolume v s).gainNode = some (max 0 (min 1 v)) ∧
    (v < 0 → (setVolume v s).gainNode = some 0) ∧
    (1 < v → (setVolume v s).gainNode = some 1) ∧
    (0 ≤ v → v ≤ 1 → (setVolume v s).gainNode = some v) := by
  have hset : (setVolume v s).gainNode = some (max 0 (min 1 v)) := by
    simp [setVolume, hg, hctx]
  refine ⟨hset, ?_, ?_, ?_⟩
  · intro hv
    rw [hset, min_eq_right (le_of_lt (lt_trans hv (by norm_num))),
      max_eq_left (le_of_lt hv)]
  · intro hv
    rw [hset, min_eq_left (le_of_lt hv)]
    simp
  · intro h0 h1
    rw [hset, min_eq_right h1, max_eq_right h0]

/-- Witness for C5: on a constructed state (gain node present at its default
value 1, context running) setVolume 2 leaves the gain at exactly 1. -/
theorem setVolume_clamps_witness :
    (setVolume 2 (initializeAudioContext (some 0) initState)).gainNode = some 1 :=
  (setVolume_clamps 2 (initializeAudioContext (some 0) initState)
    CtxState.running 1 rfl rfl).2.2.1 (by norm_num)

/-- Draw commands issued against the 2-D canvas context, as far as geometry
is concerned (gradients, colors and glow passes carry no checkable
geometry and are omitted). `bar` is the rounded rect filled by drawBars;
`polyline` is the single stroked path built by drawWaveform. -/
inductive DrawOp
  | clear (x y w h : Rat)
  | bar (x y w h : Rat)
  | polyline (pts : List (Rat × Rat))
deriving DecidableEq, Repr

/-- Bar height used by drawBars: `(dataArray[i] / 255) * height * sensitivity`. -/
def barHeight (height sens : Rat) (sample : Nat) : Rat :=
  ((sample : Rat) / 255) * height * sens

/-- Embedding of `drawBars(canvas, ctx, dataArray)`: clears the surface,
then for each bin i fills a rounded rect at x = i * barWidth (inset by one
unit on each side), y = height - barHeight, where
barWidth = width / barCount is derived from the live snapshot length. -/
def drawBars (width height sens : Rat) (d : Snapshot) : List DrawOp :=
  let barWidth := width / (d.length : Rat)
  DrawOp.clear 0 0 width height ::
    (List.range d.length).map (fun (i : Nat) =>
      DrawOp.bar ((i : Rat) * barWidth + 1)
        (height - barHeight height sens (d.getD i 0))
        (barWidth - 2)
        (barHeight height sens (d.getD i 0)))

/-- Vertex list built by the drawWaveform loop: the x coordinate starts at 0
and advances by sliceWidth after each vertex; each vertex's y is
`centerY + (v * height / 2) - (height / 4)` with `v = (sample/255) *
sensitivity` and `centerY = height / 2`. -/
def waveVerticesAux (sliceWidth height sens : Rat) :
    List Nat → Rat → List (Rat × Rat)
  | [], _ => []
  | sample :: rest, x =>
      (x, height / 2 + ((sample : Rat) / 255) * sens * height / 2 - height / 4) ::
        waveVerticesAux sliceWidth height sens rest (x + sliceWidth)

/-- Embedding of `drawWaveform(canvas, ctx, dataArray)`: clears the surface
and strokes one connected polyline with one vertex per bin, spaced by
`sliceWidth = width / dataArray.length`. -/
def drawWaveform (width height sens : Rat) (d : Snapshot) : List DrawOp :=
  [DrawOp.clear 0 0 width height,
   DrawOp.polyline (waveVerticesAux (width / (d.length : Rat)) height sens d 0)]

/-- State of the Visualizer component relevant to the animation driver:
the playing prop, the initialization flag, whether the refs animate needs
(analyser, data array, canvas) are all live, whether a frame callback is
pending, and how many renders have run. -/
structure VisState where
  isPlaying : Bool
  isInitialized : Bool
  refsReady : Bool
  scheduled : Bool
  renders : Nat
deriving DecidableEq, Repr

/-- Embedding of `animate()`: returns immediately when any needed ref is
gone; otherwise samples and renders (one render counted), then resubmits a
frame via requestAnimationFrame iff `isPlaying` is still true. -/
def animate (s : VisState) : VisState :=
  if s.refsReady then
    let s' := { s with renders := s.renders + 1 }
    if s'.isPlaying then { s' with scheduled := true } else s'
  else s

/-- A pending animation-frame callback fires: the pending slot is consumed
and the body of `animate` runs. -/
def fireFrame (s : VisState) : VisState :=
  if s.scheduled then animate { s with scheduled := false } else s

/-- Embedding of the start/stop useEffect: when playing and initialized it
calls `animate()` directly; otherwise it cancels any pending frame. -/
def runAnimEffect (s : VisState) : VisState :=
  if s.isPlaying && s.isInitialized then animate s
  else { s with scheduled := false }

/-- Playback starts: the isPlaying prop flips to true and the effect runs. -/
def startPlayback (s : VisState) : VisState :=
  runAnimEffect { s with isPlaying := true }

/-- Playback stops: the isPlaying prop flips to false and the effect runs,
cancelling any pending frame. -/
def stopPlayback (s : VisState) : VisState :=
  runAnimEffect { s with isPlaying := false }

/-- Freshly mounted Visualizer: not playing, audio graph not yet
initialized (initialization completes asynchronously), no pending frame,
nothing rendered. -/
def initialVisState : VisState :=
  { isPlaying := false, isInitialized := false, refsReady := false,
    scheduled := false, renders := 0 }

/-- C7: drawBars first clears the full surface, emits exactly one bar per
snapshot bin with slot width `width / binCount` derived from the live
snapshot length and height `(sample/255) * height * sensitivity`; an
all-zero sample yields a zero-height bar at the baseline, and a 255 sample
at sensitivity 1 yields a bar of exactly full surface height. -/
theorem drawBars_spec (w h sens : Rat) (d : Snapshot) :
    (drawBars w h sens d).head? = some (DrawOp.clear 0 0 w h) ∧
    (drawBars w h sens d).length = d.length + 1 ∧
    (∀ i, i < d.length →
      (drawBars w h sens d).getD (i + 1) (DrawOp.clear 0 0 0 0) =
        DrawOp.bar ((i : Rat) * (w / (d.length : Rat)) + 1)
          (h - barHeight h sens (d.getD i 0))
          ((w / (d.length : Rat)) - 2)
          (barHeight h sens (d.getD i 0))) ∧
    (∀ i, i < d.length → d.getD i 0 = 0 →
      (drawBars w h sens d).getD (i + 1) (DrawOp.clear 0 0 0 0) =
        DrawOp.bar ((i : Rat) * (w / (d.length : Rat)) + 1) h
          ((w / (d.length : Rat)) - 2) 0) ∧
    (sens = 1 → ∀ i, i < d.length → d.getD i 0 = 255 →
      (drawBars w h sens d).getD (i + 1) (DrawOp.clear 0 0 0 0) =
        DrawOp.bar ((i : Rat) * (w / (d.length : Rat)) + 1) 0
          ((w / (d.length : Rat)) - 2) h) := by
  have hget : ∀ i, i < d.length →
      (drawBars w h sens d).getD (i + 1) (DrawOp.clear 0 0 0 0) =
        DrawOp.bar ((i : Rat) * (w / (d.length : Rat)) + 1)
          (h - barHeight h sens (d.getD i 0))
          ((w / (d.length : Rat)) - 2)
          (barHeight h sens (d.getD i 0)) := by
    intro i hi
    simp only [drawBars, List.getD, List.get?_cons_succ]
    rw [List.get?_map, List.get?_range hi]
    rfl
  refine ⟨rfl, by simp [drawBars], hget, ?_, ?_⟩
  · intro i hi hz
    rw [hget i hi, hz]
    norm_num [barHeight]
  · intro hs i hi hz
    rw [hget i hi, hz, hs]
    norm_num [barHeight]

/-- Witness for C7 at width 100, height 50, sensitivity 1 and the two-bin
snapshots [0, 0] and [255, 255]. -/
theorem drawBars_spec_witness :
    (drawBars 100 50 1 [0, 0]).getD 1 (DrawOp.clear 0 0 0 0) =
      DrawOp.bar ((0 : Rat) * (100 / (([0, 0] : Snapshot).length : Rat)) + 1) 50
        ((100 / (([0, 0] : Snapshot).length : Rat)) - 2) 0 ∧
    (drawBars 100 50 1 [255, 255]).getD 2 (DrawOp.clear 0 0 0 0) =
      DrawOp.bar ((1 : Rat) * (100 / (([255, 255] : Snapshot).length : Rat)) + 1) 0
        ((100 / (([255, 255] : Snapshot).length : Rat)) - 2) 50 :=
  ⟨(drawBars_spec 100 50 1 [0, 0]).2.2.2.1 0 (by decide) rfl,
   (drawBars_spec 100 50 1 [255, 255]).2.2.2.2 rfl 1 (by decide) rfl⟩

theorem waveVerticesAux_length (sw h sens : Rat) :
    ∀ (d : List Nat) (x0 : Rat),
      (waveVerticesAux sw h sens d x0).length = d.length := by
  intro d
  induction d with
  | nil => intro x0; rfl
  | cons a rest ih => intro x0; simp [waveVerticesAux, ih]

theorem waveVerticesAux_getD (sw h sens : Rat) :
    ∀ (d : List Nat) (x0 : Rat) (i : Nat), i < d.length →
      (waveVerticesAux sw h sens d x0).getD i (0, 0) =
        (x0 + (i : Rat) * sw,
         h / 2 + ((d.getD i 0 : Rat) / 255) * sens * h / 2 - h / 4) := by
  intro d
  induction d with
  | nil => intro x0 i hi; simp at hi
  | cons a rest ih =>
      intro x0 i hi
      cases i with
      | zero => simp [waveVerticesAux]
      | succ j =>
          have hj : j < rest.length := by simpa using hi
          simp only [waveVerticesAux, List.getD_cons_succ]
          rw [ih (x0 + sw) j hj]
          have : x0 + sw + (j : Rat) * sw = x0 + ((j : Nat) + 1 : Rat) * sw := by
            ring
          rw [this]
          norm_num

/-- C9: drawWaveform clears the surface then strokes a single connected
polyline with exactly one vertex per bin; vertex i sits at
x = i * (width / binCount) (so consecutive vertices are spaced by
width / binCount) and its vertical offset from the surface's center line is
((sample/255) * sensitivity - 1/2) * (height/2), i.e. the mapping of
(sample/255) * sensitivity is centered vertically. -/
theorem drawWaveform_spec (w h sens : Rat) (d : Snapshot) :
    drawWaveform w h sens d =
      [DrawOp.clear 0 0 w h,
       DrawOp.polyline (waveVerticesAux (w / (d.length : Rat)) h sens d 0)] ∧
    (waveVerticesAux (w / (d.length : Rat)) h sens d 0).length = d.length ∧
    (∀ i, i < d.length →
      (waveVerticesAux (w / (d.length : Rat)) h sens d 0).getD i (0, 0) =
        ((i : Rat) * (w / (d.length : Rat)),
         h / 2 + ((d.getD i 0 : Rat) / 255) * sens * h / 2 - h / 4)) ∧
    (∀ i, i + 1 < d.length →
      ((waveVerticesAux (w / (d.length : Rat)) h sens d 0).getD (i + 1) (0, 0)).1 -
        ((waveVerticesAux (w / (d.length : Rat)) h sens d 0).getD i (0, 0)).1 =
        w / (d.length : Rat)) ∧
    (∀ i, i < d.length →
      ((waveVerticesAux (w / (d.length : Rat)) h sens d 0).getD i (0, 0)).2 -
        h / 2 =
        (((d.getD i 0 : Rat) / 255) * sens - 1 / 2) * (h / 2)) := by
  have hget := waveVerticesAux_getD (w / (d.length : Rat)) h sens d 0
  refine ⟨rfl, waveVerticesAux_length _ _ _ d 0, ?_, ?_, ?_⟩
  · intro i hi
    rw [hget i hi]
    norm_num
  · intro i hi
    rw [hget (i + 1) hi, hget i (by omega)]
    push_cast
    ring
  · intro i hi
    rw [hget i hi]
    push_cast
    ring

/-- Witness for C9 at width 120, height 60, sensitivity 1 and the snapshot
[0, 255, 0]: the middle vertex sits at x = 40 with vertical offset
(255/255 * 1 - 1/2) * 30 from the center line. -/
theorem drawWaveform_spec_witness :
    (waveVerticesAux (120 / (([0, 255, 0] : Snapshot).length : Rat)) 60 1
        [0, 255, 0] 0).getD 1 (0, 0) =
      ((1 : Rat) * (120 / (([0, 255, 0] : Snapshot).length : Rat)),
       60 / 2 + ((([0, 255, 0] : Snapshot).getD 1 0 : Rat) / 255) * 1 * 60 / 2 -
         60 / 4) :=
  (drawWaveform_spec 120 60 1 [0, 255, 0]).2.2.1 1 (by decide)

/-- C8: a firing tick resubmits a frame iff playback is still active and the
refs are live, rendering exactly once when the refs are live; when any
hosting ref is gone, animate does nothing at all; and in the fresh-mount
scenario, starting playback (initialization still pending) and stopping
before the first scheduled frame fires leaves zero renders and no pending
frame — no render call and no error. -/
theorem animate_resubmits_iff_playing (s : VisState) :
    (s.scheduled = true →
      (fireFrame s).scheduled = (s.refsReady && s.isPlaying) ∧
      (fireFrame s).renders = s.renders + (if s.refsReady then 1 else 0)) ∧
    (s.refsReady = false → animate s = s) ∧
    (stopPlayback (startPlayback initialVisState)).renders = 0 ∧
    (stopPlayback (startPlayback initialVisState)).scheduled = false := by
  refine ⟨?_, ?_, by decide, by decide⟩
  · intro hs
    cases hr : s.refsReady <;> cases hp : s.isPlaying <;>
      simp [fireFrame, animate, hs, hr, hp]
  · intro hr
    simp [animate, hr]

/-- Witness for C8: a live, playing, scheduled state whose frame fires
renders once and resubmits. -/
theorem animate_resubmits_iff_playing_witness :
    (fireFrame (VisState.mk true true true true 3)).scheduled =
      ((VisState.mk true true true true 3).refsReady &&
        (VisState.mk true true true true 3).isPlaying) ∧
    (fireFrame (VisState.mk true true true true 3)).renders =
      (VisState.mk true true true true 3).renders +
        (if (VisState.mk true true true true 3).refsReady then 1 else 0) :=
  (animate_resubmits_iff_playing (VisState.mk true true true true 3)).1 rfl

/-- C2: for every snapshot of length N the three band ranges
bass = [0, N/8), mid = [N/8, 5N/8), treble = [5N/8, N) are pairwise
disjoint and cover every index, and — whenever its range is nonempty,
so that a mean exists — each band value is the arithmetic mean of the
samples in its range. -/
theorem bands_partition_and_mean (d : Snapshot) :
    (∀ i, i < d.length →
      ((i < bassEnd d.length) ∨
        (bassEnd d.length ≤ i ∧ i < midEnd d.length) ∨
        (midEnd d.length ≤ i ∧ i < d.length)) ∧
      ¬ ((i < bassEnd d.length) ∧ (bassEnd d.length ≤ i ∧ i < midEnd d.length)) ∧
      ¬ ((i < bassEnd d.length) ∧ (midEnd d.length ≤ i ∧ i < d.length)) ∧
      ¬ ((bassEnd d.length ≤ i ∧ i < midEnd d.length) ∧
          (midEnd d.length ≤ i ∧ i < d.length))) ∧
    (0 < bassEnd d.length →
      getBassFrequency d = listMean (d.take (bassEnd d.length))) ∧
    (bassEnd d.length < midEnd d.length →
      getMidFrequency d =
        listMean ((d.drop (bassEnd d.length)).take
          (midEnd d.length - bassEnd d.length))) ∧
    (midEnd d.length < d.length →
      getTrebleFrequency d =
        listMean ((d.drop (midEnd d.length)).take
          (d.length - midEnd d.length))) := by
  have hbm : bassEnd d.length ≤ midEnd d.length := by
    unfold bassEnd midEnd; omega
  have hmn : midEnd d.length ≤ d.length := by
    unfold midEnd; omega
  have hbn : bassEnd d.length ≤ d.length := le_trans hbm hmn
  refine ⟨?_, ?_, ?_, ?_⟩
  · intro i hi
    refine ⟨?_, ?_, ?_, ?_⟩ <;> omega
  · intro _
    rw [getBassFrequency,
      loopSum_eq_slice_sum d 0 (bassEnd d.length) (Nat.zero_le _) hbn]
    have hlen := slice_length d 0 (bassEnd d.length) (Nat.zero_le _) hbn
    simp only [List.drop_zero, Nat.sub_zero] at hlen ⊢
    rw [listMean, hlen]
  · intro _
    rw [getMidFrequency,
      loopSum_eq_slice_sum d (bassEnd d.length) (midEnd d.length) hbm hmn]
    have hlen := slice_length d (bassEnd d.length) (midEnd d.length) hbm hmn
    rw [listMean, hlen]
  · intro _
    rw [getTrebleFrequency,
      loopSum_eq_slice_sum d (midEnd d.length) d.length hmn (le_refl _)]
    have hlen := slice_length d (midEnd d.length) d.length hmn (le_refl _)
    rw [listMean, hlen]

/-- Witness for C2 at the concrete snapshot [8,16,24,32,40,48,56,64]
(N = 8, bass range [0,1), mid range [1,5), treble range [5,8)). -/
theorem bands_partition_and_mean_witness :
    getBassFrequency [8, 16, 24, 32, 40, 48, 56, 64] =
      listMean ([8, 16, 24, 32, 40, 48, 56, 64].take
        (bassEnd ([8, 16, 24, 32, 40, 48, 56, 64] : Snapshot).length)) ∧
    getMidFrequency [8, 16, 24, 32, 40, 48, 56, 64] =
      listMean (([8, 16, 24, 32, 40, 48, 56, 64].drop
          (bassEnd ([8, 16, 24, 32, 40, 48, 56, 64] : Snapshot).length)).take
        (midEnd ([8, 16, 24, 32, 40, 48, 56, 64] : Snapshot).length -
          bassEnd ([8, 16, 24, 32, 40, 48, 56, 64] : Snapshot).length)) ∧
    getTrebleFrequency [8, 16, 24, 32, 40, 48, 56, 64] =
      listMean (([8, 16, 24, 32, 40, 48, 56, 64].drop
          (midEnd ([8, 16, 24, 32, 40, 48, 56, 64] : Snapshot).length)).take
        (([8, 16, 24, 32, 40, 48, 56, 64] : Snapshot).length -
          midEnd ([8, 16, 24, 32, 40, 48, 56, 64] : Snapshot).length)) :=
  ⟨(bands_partition_and_mean [8, 16, 24, 32, 40, 48, 56, 64]).2.1 (by decide),
   (bands_partition_and_mean [8, 16, 24, 32, 40, 48, 56, 64]).2.2.1 (by decide),
   (bands_partition_and_mean [8, 16, 24, 32, 40, 48, 56, 64]).2.2.2 (by decide)⟩

/-- C6: detectBeat is true iff the bass band average strictly exceeds the
threshold; the default threshold is 200; the result is a pure function of
the snapshot and threshold (no carried state), hence monotone: true at a
threshold T implies true at every smaller threshold. -/
theorem detectBeat_spec (d : Snapshot) (t t' : Rat) :
    (detectBeat d t = true ↔ getBassFrequency d > t) ∧
    detectBeatDefault d = detectBeat d 200 ∧
    (t' < t → detectBeat d t = true → detectBeat d t' = true) := by
  refine ⟨by simp [detectBeat], rfl, ?_⟩
  intro htt h
  simp only [detectBeat, decide_eq_true_eq] at h ⊢
  exact lt_trans htt h

/-- Witness for C6: on an all-255 snapshot of length 8 a beat detected at
threshold 100 is also detected at threshold 50. -/
theorem detectBeat_spec_witness :
    detectBeat [255, 255, 255, 255, 255, 255, 255, 255] 50 = true :=
  (detectBeat_spec [255, 255, 255, 255, 255, 255, 255, 255] 100 50).2.2
    (by norm_num)
    (by
      have hb : getBassFrequency [255, 255, 255, 255, 255, 255, 255, 255] = 255 := by
        norm_num [getBassFrequency, bassEnd, loopSum, List.range']
      simp [detectBeat, hb]
      norm_num)

/-- C10: for N at least 8 every divisor used by the three band averages is
positive (bass divides by N/8, mid by 5N/8 - N/8, treble by N - 5N/8); a
nonempty snapshot of length 4 makes the bass divisor zero (a division by
zero, NaN in the source), and length 1 makes the mid divisor zero. -/
theorem band_divisors (d : Snapshot) :
    (8 ≤ d.length →
      0 < bassEnd d.length ∧
      0 < midEnd d.length - bassEnd d.length ∧
      0 < d.length - midEnd d.length) ∧
    (d.length = 4 → bassEnd d.length = 0) ∧
    (d.length = 1 → midEnd d.length - bassEnd d.length = 0) := by
  unfold bassEnd midEnd
  refine ⟨?_, ?_, ?_⟩ <;> intro h <;> omega

/-- Witness for C10: divisors positive on a length-8 snapshot; bass divisor
zero on the nonempty length-4 snapshot [1,2,3,4]; mid divisor zero on the
length-1 snapshot [7]. -/
theorem band_divisors_witness :
    (0 < bassEnd ([0, 0, 0, 0, 0, 0, 0, 0] : Snapshot).length ∧
      0 < midEnd ([0, 0, 0, 0, 0, 0, 0, 0] : Snapshot).length -
        bassEnd ([0, 0, 0, 0, 0, 0, 0, 0] : Snapshot).length ∧
      0 < ([0, 0, 0, 0, 0, 0, 0, 0] : Snapshot).length -
        midEnd ([0, 0, 0, 0, 0, 0, 0, 0] : Snapshot).length) ∧
    bassEnd ([1, 2, 3, 4] : Snapshot).length = 0 ∧
    midEnd ([7] : Snapshot).length - bassEnd ([7] : Snapshot).length = 0 :=
  ⟨(band_divisors [0, 0, 0, 0, 0, 0, 0, 0]).1 (by decide),
   (band_divisors [1, 2, 3, 4]).2.1 (by decide),
   (band_divisors [7]).2.2 (by decide)⟩

end PlayerViz
